import Mathlib

/-!
Formal model of the eero-cli resource-resolution and live-monitoring core.

The definitions below are shallow embeddings of the Go source:
  - `internal/api/client.go` (transport error mapping, ID extraction, data model),
  - `internal/cmd/devices.go` (device filtering, device resolver, monitor loop),
  - `internal/cmd/profiles.go` and the profile-membership commands (add/remove),
  - `internal/cmd/reservations.go` (reservation resolver).
Go strings are modelled as Lean `String`s; Go's `strings.ToLower`,
`strings.EqualFold`, `strings.HasPrefix` and `strings.ReplaceAll(s, ":", "")`
are modelled on ASCII data by a character-wise lower-casing, lower-case
comparison, list-level `isPrefixOf`, and a colon-dropping filter. Fallible
Go functions returning `(T, error)` are modelled as `Except String T`.
-/

namespace EeroCli

/-- Model of Go `strings.ToLower` (ASCII data): lower-case every character. -/
def goToLower (s : String) : String := String.mk (s.data.map Char.toLower)

/-- Model of Go `strings.EqualFold` on ASCII data: case-insensitive equality. -/
def eqFold (s t : String) : Bool := goToLower s == goToLower t

/-- Model of Go `strings.HasPrefix s pre`: does `s` start with `pre`? -/
def goStartsWith (s pre : String) : Bool := pre.data.isPrefixOf s.data

/-- Model of Go `strings.ReplaceAll s ":" ""`: drop every colon. -/
def stripColons (s : String) : String := String.mk (s.data.filter (fun c => c ≠ ':'))

/-! ## ID extraction (`internal/api/client.go`, lines 344-369)

The source extracts IDs by a fixed byte offset, not by splitting on `/`. -/

/-- Embeds `ExtractDeviceID` from `client.go`: `if len(url) > 12 { return url[13:] }`. -/
def ExtractDeviceID (url : String) : String :=
  if url.length > 12 then url.drop 13 else url

/-- Embeds `ExtractProfileID` from `client.go`: `if len(url) > 13 { return url[14:] }`. -/
def ExtractProfileID (url : String) : String :=
  if url.length > 13 then url.drop 14 else url

/-- Spec-side definition ("Canonical ID: the trailing path segment of a
resource's URL"): the substring after the last `/`. Used to compare the
source's extraction functions against the specified behaviour. -/
def trailingPathSegment (url : String) : String :=
  String.mk (url.data.foldl (fun acc c => if c = '/' then [] else acc ++ [c]) [])

/-- Modelled from the spec: `ExtractReservationID` is called by
`reservations.go` and by the tests but its body is not among the provided
sources; the spec defines the canonical ID of every resource as the trailing
path segment of its URL. -/
def ExtractReservationID (url : String) : String := trailingPathSegment url

/-! ## Data model (`internal/api/client.go` struct `Device`, plus the
`IsGuest`/`IsPrivate` flags of §3 of the spec that the `cmd` code reads). -/

/-- The profile reference embedded in a device (`Device.Profile`). -/
structure DeviceProfileRef where
  url : String
  name : String
deriving DecidableEq, Repr

/-- Embeds the `Device` struct; `profile = none` models a nil `*Profile`. -/
structure Device where
  url : String
  mac : String
  hostname : String
  nickname : String
  ip : String
  connected : Bool
  wireless : Bool
  paused : Bool
  blocked : Bool
  isGuest : Bool
  isPrivate : Bool
  profile : Option DeviceProfileRef
deriving DecidableEq, Repr

/-- Embeds `Device.DisplayName`: nickname, else hostname, else MAC. -/
def Device.DisplayName (d : Device) : String :=
  if d.nickname ≠ "" then d.nickname
  else if d.hostname ≠ "" then d.hostname
  else d.mac

/-- Embeds the `Profile` struct of `client.go`. -/
structure Profile where
  url : String
  name : String
  paused : Bool
deriving DecidableEq, Repr

/-- Embeds the `Reservation` struct used by `reservations.go`. -/
structure Reservation where
  url : String
  ip : String
  mac : String
  description : String
deriving DecidableEq, Repr

/-! ## Identifier resolvers -/

/-- Embeds the loop body predicates of `findDeviceID` (`devices.go`,
lines 494-516): per candidate the query is tried against the exact ID, the
lower-cased ID as a left part, the MAC (with and without colons), and the
display name. `q` is the already lower-cased query. -/
def deviceMatchesQuery (d : Device) (q : String) : Bool :=
  let deviceID := ExtractDeviceID d.url
  deviceID == q
    || goStartsWith (goToLower deviceID) q
    || (goToLower d.mac == q || stripColons (goToLower d.mac) == stripColons q)
    || eqFold d.DisplayName q

/-- Scanning loop of `findDeviceID`: first candidate matching any rule wins. -/
def findDeviceIDScan : List Device → String → Option String
  | [], _ => none
  | d :: rest, q =>
    if deviceMatchesQuery d q then some (ExtractDeviceID d.url)
    else findDeviceIDScan rest q

/-- Embeds `findDeviceID` (`devices.go`, lines 486-519): lower-case the query,
scan the listing in order, or fail with `device not found`. -/
def findDeviceID (devices : List Device) (query : String) : Except String String :=
  let q := goToLower query
  match findDeviceIDScan devices q with
  | some id => .ok id
  | none => .error ("device not found: " ++ q)

/-- Embeds the loop body predicates of `findReservationID`
(`reservations.go`, lines 140-157): exact ID, MAC (normalized), or IP.
There is no ID-prefix rule in this resolver. -/
def reservationMatchesQuery (r : Reservation) (q : String) : Bool :=
  let reservationID := ExtractReservationID r.url
  reservationID == q
    || (goToLower r.mac == q || stripColons (goToLower r.mac) == stripColons q)
    || r.ip == q

/-- Scanning loop of `findReservationID`. -/
def findReservationIDScan : List Reservation → String → Option String
  | [], _ => none
  | r :: rest, q =>
    if reservationMatchesQuery r q then some (ExtractReservationID r.url)
    else findReservationIDScan rest q

/-- Embeds `findReservationID` (`reservations.go`, lines 132-159). -/
def findReservationID (reservations : List Reservation) (query : String) :
    Except String String :=
  let q := goToLower query
  match findReservationIDScan reservations q with
  | some id => .ok id
  | none => .error ("reservation not found: " ++ q)

/-! ## Device filtering (`devices.go`) -/

/-- Embeds the `DeviceFilters` struct (flag values; `interval` for monitor). -/
structure DeviceFilters where
  profile : String
  noProfile : Bool
  wired : Bool
  wireless : Bool
  online : Bool
  offline : Bool
  guest : Bool
  noGuest : Bool
  interval : Int
deriving DecidableEq, Repr

/-- The all-off filter set. -/
def noFilters : DeviceFilters :=
  ⟨"", false, false, false, false, false, false, false, 0⟩

/-- Embeds the profile-filter resolution of `ListDevices` / `MonitorDevices`:
the first profile whose ID or name equals the filter (case-insensitively)
contributes its name; otherwise the raw filter string is used as-is. -/
def resolveProfileName (profiles : List Profile) (filterStr : String) : String :=
  let r := match profiles.find?
      (fun p => eqFold (ExtractProfileID p.url) filterStr || eqFold p.name filterStr) with
    | some p => p.name
    | none => ""
  if r == "" then filterStr else r

/-- The `profileName` local of the `ListDevices` loop: empty for guests and
for devices without a profile. -/
def listProfileName (d : Device) : String :=
  if d.isGuest then ""
  else match d.profile with
    | some p => p.name
    | none => ""

/-- The `profileID` local of the `ListDevices` loop: empty for guests and for
devices without a profile. -/
def listProfileID (d : Device) : String :=
  if d.isGuest then ""
  else match d.profile with
    | some p => ExtractProfileID p.url
    | none => ""

/-- Profile predicate of `ListDevices`: when a profile filter is set, the
device's profile name must equal the resolved name or its profile ID must
equal the raw filter (case-insensitively). -/
def profileFilterOk (f : DeviceFilters) (rn : String) (d : Device) : Bool :=
  !(f.profile != "" && !(eqFold (listProfileName d) rn || eqFold (listProfileID d) f.profile))

/-- Wired predicate: `--wired` excludes wireless devices. -/
def wiredOk (f : DeviceFilters) (d : Device) : Bool := !(f.wired && d.wireless)

/-- Wireless predicate: `--wireless` excludes wired devices. -/
def wirelessOk (f : DeviceFilters) (d : Device) : Bool := !(f.wireless && !d.wireless)

/-- Online predicate: `--online` excludes disconnected devices. -/
def onlineOk (f : DeviceFilters) (d : Device) : Bool := !(f.online && !d.connected)

/-- Offline predicate: `--offline` excludes connected devices. -/
def offlineOk (f : DeviceFilters) (d : Device) : Bool := !(f.offline && d.connected)

/-- Guest predicate: `--guest` keeps only guest devices. -/
def guestOk (f : DeviceFilters) (d : Device) : Bool := !(f.guest && !d.isGuest)

/-- No-guest predicate: `--noguest` excludes guest devices. -/
def noGuestOk (f : DeviceFilters) (d : Device) : Bool := !(f.noGuest && d.isGuest)

/-- No-profile predicate: `--noprofile` excludes devices with a profile. -/
def noProfileOk (f : DeviceFilters) (d : Device) : Bool := !(f.noProfile && d.profile.isSome)

/-- Conjunction of all eight predicates, in the order the loop tests them. -/
def devicePasses (f : DeviceFilters) (rn : String) (d : Device) : Bool :=
  profileFilterOk f rn d && wiredOk f d && wirelessOk f d && onlineOk f d
    && offlineOk f d && guestOk f d && noGuestOk f d && noProfileOk f d

/-- Embeds the filtering cascade of the `ListDevices` loop (`devices.go`,
lines 139-191): each `continue` is a branch that drops the device. -/
def survivors (f : DeviceFilters) (rn : String) : List Device → List Device
  | [] => []
  | d :: rest =>
    if f.profile != ""
        && !(eqFold (listProfileName d) rn || eqFold (listProfileID d) f.profile) then
      survivors f rn rest
    else if f.wired && d.wireless then survivors f rn rest
    else if f.wireless && !d.wireless then survivors f rn rest
    else if f.online && !d.connected then survivors f rn rest
    else if f.offline && d.connected then survivors f rn rest
    else if f.guest && !d.isGuest then survivors f rn rest
    else if f.noGuest && d.isGuest then survivors f rn rest
    else if f.noProfile && d.profile.isSome then survivors f rn rest
    else d :: survivors f rn rest

/-! ## Monitor loop (`devices.go`, `MonitorDevices`, lines 296-425) -/

/-- Embeds the `DeviceState` snapshot struct. -/
structure DeviceState where
  name : String
  ip : String
  mac : String
  connected : Bool
  paused : Bool
  blocked : Bool
  wireless : Bool
  isGuest : Bool
  profile : String
deriving DecidableEq, Repr

/-- The `profileDisplay` local of the monitor loop: `"Guest"` for guests,
`name (id)` for profiled devices, empty otherwise. -/
def profileDisplay (d : Device) : String :=
  if d.isGuest then "Guest"
  else match d.profile with
    | some p => p.name ++ " (" ++ ExtractProfileID p.url ++ ")"
    | none => ""

/-- The `currentState` snapshot the monitor computes for a device. -/
def snapshotOf (d : Device) : DeviceState :=
  { name := d.DisplayName, ip := d.ip, mac := d.mac, connected := d.connected,
    paused := d.paused, blocked := d.blocked, wireless := d.wireless,
    isGuest := d.isGuest, profile := profileDisplay d }

/-- The monitor's profile-filter locals differ slightly from `ListDevices`:
`profileID` is extracted whenever the device has a profile, guest or not. -/
def monitorProfileID (d : Device) : String :=
  match d.profile with
  | some p => ExtractProfileID p.url
  | none => ""

/-- Embeds the filtering cascade inside the monitor loop (`devices.go`,
lines 342-386). -/
def monitorSurvivors (f : DeviceFilters) (rn : String) : List Device → List Device
  | [] => []
  | d :: rest =>
    if f.profile != ""
        && !(eqFold (listProfileName d) rn || eqFold (monitorProfileID d) f.profile) then
      monitorSurvivors f rn rest
    else if f.wired && d.wireless then monitorSurvivors f rn rest
    else if f.wireless && !d.wireless then monitorSurvivors f rn rest
    else if f.online && !d.connected then monitorSurvivors f rn rest
    else if f.offline && d.connected then monitorSurvivors f rn rest
    else if f.guest && !d.isGuest then monitorSurvivors f rn rest
    else if f.noGuest && d.isGuest then monitorSurvivors f rn rest
    else if f.noProfile && d.profile.isSome then monitorSurvivors f rn rest
    else d :: monitorSurvivors f rn rest

/-- The monitor's snapshot store, modelling the Go map `prevState`:
an association list with the usual lookup. -/
def stateLookup : List (String × DeviceState) → String → Option DeviceState
  | [], _ => none
  | (k', v) :: rest, k => if k' == k then some v else stateLookup rest k

/-- Map update `prevState[deviceID] = currentState`: replace or append. -/
def stateInsert : List (String × DeviceState) → String → DeviceState →
    List (String × DeviceState)
  | [], k, v => [(k, v)]
  | (k', v') :: rest, k, v =>
    if k' == k then (k, v) :: rest else (k', v') :: stateInsert rest k v

/-- Embeds the change test of the monitor (`devices.go`, lines 406-409):
`connected`, `paused`, `blocked` or `IP` differs. -/
def diffChanged (prev curr : DeviceState) : Bool :=
  prev.connected != curr.connected || prev.paused != curr.paused
    || prev.blocked != curr.blocked || prev.ip != curr.ip

/-- A reported monitor row: the device ID, whether the device was new
(absent from the previous snapshot map), and the state printed. -/
structure MonitorEvent where
  deviceID : String
  isNew : Bool
  state : DeviceState
deriving DecidableEq, Repr

/-- Embeds the per-device body of the monitor loop over the surviving
devices (`devices.go`, lines 388-420): look up the previous snapshot,
decide `hasChanges`, emit a row, store the current snapshot. -/
def processDevices (first : Bool) :
    List (String × DeviceState) → List Device →
    List MonitorEvent × List (String × DeviceState)
  | m, [] => ([], m)
  | m, d :: rest =>
    let deviceID := ExtractDeviceID d.url
    let currentState := snapshotOf d
    let prevEntry := stateLookup m deviceID
    let hasChanges :=
      match first, prevEntry with
      | false, some prev => diffChanged prev currentState
      | false, none => true
      | true, _ => false
    let evs :=
      if hasChanges then [⟨deviceID, prevEntry.isNone, currentState⟩] else []
    let (rest_evs, m') := processDevices first (stateInsert m deviceID currentState) rest
    (evs ++ rest_evs, m')

/-- Embeds the interval normalization of `MonitorDevices` (lines 302-305):
non-positive intervals default to 10 seconds. -/
def monitorInterval (f : DeviceFilters) : Int :=
  if f.interval ≤ 0 then 10 else f.interval

/-- The observable outcome of one iteration of the monitor loop. The Go
loop never exits: both branches end the iteration with a full-interval
sleep and continue, so a tick is a total function to the next state. -/
structure MonitorTickResult where
  fetchErrorReported : Option String
  events : List MonitorEvent
  state : List (String × DeviceState)
  first : Bool
  sleptSeconds : Int
deriving DecidableEq, Repr

/-- Embeds one iteration of the `for` loop of `MonitorDevices`
(lines 334-424): a fetch failure reports the error and leaves everything
unchanged (the `first` flag included, since `continue` skips the
`first = false` assignment); a successful fetch filters, diffs and stores. -/
def monitorTick (f : DeviceFilters) (rn : String)
    (m : List (String × DeviceState)) (first : Bool)
    (fetch : Except String (List Device)) : MonitorTickResult :=
  match fetch with
  | .error e =>
    { fetchErrorReported := some e, events := [], state := m, first := first,
      sleptSeconds := monitorInterval f }
  | .ok devices =>
    let surv := monitorSurvivors f rn devices
    let (evs, m') := processDevices first m surv
    { fetchErrorReported := none, events := evs, state := m', first := false,
      sleptSeconds := monitorInterval f }

/-- Spec-side definition of the event the monitor is expected to emit for one
surviving device, computed pointwise against the snapshot map as it stood at
the start of the tick: a device absent from the map is reported as new, a
device present in it is reported exactly when one of the four compared fields
changed. -/
def expectedTickEvent (m : List (String × DeviceState)) (d : Device) :
    Option MonitorEvent :=
  let deviceID := ExtractDeviceID d.url
  let currentState := snapshotOf d
  match stateLookup m deviceID with
  | some prev =>
    if diffChanged prev currentState then some ⟨deviceID, false, currentState⟩ else none
  | none => some ⟨deviceID, true, currentState⟩

/-! ## Profile membership (`AddDeviceToProfile` / `RemoveDeviceFromProfile`) -/

/-- The device URL both membership commands construct:
`fmt.Sprintf("/2.2/networks/%s/devices/%s", networkID, deviceID)`. -/
def deviceURLFor (networkID deviceID : String) : String :=
  "/2.2/networks/" ++ networkID ++ "/devices/" ++ deviceID

/-- Embeds the membership core of `AddDeviceToProfile` (lines 196-213 of the
profiles command source): if the device URL is already among the member URLs
the command fails before calling `SetProfileDevices` (an `error` result means
no write was issued); otherwise the write is the old list with the URL
appended. -/
def AddDeviceToProfile (networkID deviceID profileName : String)
    (members : List String) : Except String (List String) :=
  let deviceURL := deviceURLFor networkID deviceID
  if members.contains deviceURL then
    .error ("device " ++ deviceID ++ " is already in profile " ++ profileName)
  else
    .ok (members ++ [deviceURL])

/-- The scan of `RemoveDeviceFromProfile` (lines 243-252): walk the member
list, set `found` when the device URL appears, keep every other URL in
order. -/
def removeScan : List String → String → Bool × List String
  | [], _ => (false, [])
  | u :: rest, deviceURL =>
    let (f, acc) := removeScan rest deviceURL
    if u == deviceURL then (true, acc) else (f, u :: acc)

/-- Embeds the membership core of `RemoveDeviceFromProfile` (lines 243-260):
if the device URL is absent the command fails before calling
`SetProfileDevices`; otherwise the write is the member list with every
occurrence of the URL removed, order preserved. -/
def RemoveDeviceFromProfile (networkID deviceID profileName : String)
    (members : List String) : Except String (List String) :=
  let deviceURL := deviceURLFor networkID deviceID
  let (found, deviceURLs) := removeScan members deviceURL
  if !found then
    .error ("device " ++ deviceID ++ " is not in profile " ++ profileName)
  else
    .ok deviceURLs

/-! ## Transport error mapping (`client.go`, `request`, lines 72-78)

The non-2xx branch of `request` feeds the response body to `json.Unmarshal`
targeting the `APIError` struct `{meta:{code,error}}`. The JSON subset the
vendor uses (objects, arrays, strings, integers, booleans, null) is modelled
by an executable parser; `decodeAPIError` models unmarshalling into the
struct: unknown fields are ignored, absent fields keep their zero values,
and a shape mismatch is a failure. -/

/-- JSON values. -/
inductive Json where
  | null : Json
  | bool : Bool → Json
  | num : Int → Json
  | str : String → Json
  | arr : List Json → Json
  | obj : List (String × Json) → Json
deriving Repr

/-- Whitespace skipping. -/
def skipWs : List Char → List Char
  | c :: cs => if c = ' ' || c = '\n' || c = '\t' || c = '\r' then skipWs cs else c :: cs
  | [] => []

/-- Escape resolution for the common JSON escapes. -/
def escChar (c : Char) : Char :=
  if c = 'n' then '\n' else if c = 't' then '\t' else if c = 'r' then '\r' else c

/-- Parse the body of a string literal (after the opening quote), returning
the content and the remainder after the closing quote. -/
def parseStringBody : List Char → Option (List Char × List Char)
  | [] => none
  | '"' :: cs => some ([], cs)
  | '\\' :: cs =>
    match cs with
    | [] => none
    | c :: cs' => (parseStringBody cs').map (fun r => (escChar c :: r.1, r.2))
  | c :: cs => (parseStringBody cs).map (fun r => (c :: r.1, r.2))

/-- Take leading decimal digits. -/
def takeDigits : List Char → List Char × List Char
  | [] => ([], [])
  | c :: cs =>
    if c.isDigit then
      let (ds, r) := takeDigits cs
      (c :: ds, r)
    else ([], c :: cs)

/-- Digits to a natural number. -/
def digitsToNat (ds : List Char) : Nat :=
  ds.foldl (fun acc c => acc * 10 + (c.toNat - 48)) 0

/-- Parse an integer literal (the vendor's numeric fields are integers). -/
def parseNumber : List Char → Option (Json × List Char)
  | '-' :: rest =>
    match takeDigits rest with
    | ([], _) => none
    | (ds, r) => some (.num (-(digitsToNat ds : Int)), r)
  | cs =>
    match takeDigits cs with
    | ([], _) => none
    | (ds, r) => some (.num (digitsToNat ds), r)

mutual

/-- Fuel-indexed JSON value parser. -/
def parseValue : Nat → List Char → Option (Json × List Char)
  | 0, _ => none
  | fuel + 1, cs =>
    match skipWs cs with
    | 'n' :: 'u' :: 'l' :: 'l' :: rest => some (.null, rest)
    | 't' :: 'r' :: 'u' :: 'e' :: rest => some (.bool true, rest)
    | 'f' :: 'a' :: 'l' :: 's' :: 'e' :: rest => some (.bool false, rest)
    | '"' :: rest => (parseStringBody rest).map (fun r => (.str (String.mk r.1), r.2))
    | '[' :: rest => parseArrayItems fuel (skipWs rest)
    | '{' :: rest => parseObjectItems fuel (skipWs rest)
    | cs' => parseNumber cs'

/-- Array items, after the opening bracket (leading whitespace consumed). -/
def parseArrayItems : Nat → List Char → Option (Json × List Char)
  | 0, _ => none
  | fuel + 1, cs =>
    match cs with
    | ']' :: rest => some (.arr [], rest)
    | _ =>
      match parseValue fuel cs with
      | none => none
      | some (v, r1) =>
        match skipWs r1 with
        | ',' :: r2 =>
          match parseArrayItems fuel (skipWs r2) with
          | some (.arr vs, rr) => some (.arr (v :: vs), rr)
          | _ => none
        | ']' :: r2 => some (.arr [v], r2)
        | _ => none

/-- Object fields, after the opening brace (leading whitespace consumed). -/
def parseObjectItems : Nat → List Char → Option (Json × List Char)
  | 0, _ => none
  | fuel + 1, cs =>
    match cs with
    | '}' :: rest => some (.obj [], rest)
    | '"' :: rest =>
      match parseStringBody rest with
      | none => none
      | some (key, r1) =>
        match skipWs r1 with
        | ':' :: r2 =>
          match parseValue fuel (skipWs r2) with
          | none => none
          | some (v, r3) =>
            match skipWs r3 with
            | ',' :: r4 =>
              match parseObjectItems fuel (skipWs r4) with
              | some (.obj fs, rr) => some (.obj ((String.mk key, v) :: fs), rr)
              | _ => none
            | '}' :: r4 => some (.obj [(String.mk key, v)], r4)
            | _ => none
        | _ => none
    | _ => none

end

/-- Parse a whole JSON document: one value and nothing but whitespace after. -/
def parseJson (s : String) : Option Json :=
  match parseValue (2 * s.length + 2) s.data with
  | some (v, rest) => if skipWs rest = [] then some v else none
  | none => none

/-- Embeds the `APIError` struct: `{meta:{code,error}}`. -/
structure APIError where
  metaCode : Int
  metaError : String
deriving DecidableEq, Repr

/-- Field lookup in a parsed object. -/
def lookupField (fields : List (String × Json)) (k : String) : Option Json :=
  (fields.find? (fun f => f.1 == k)).map (fun f => f.2)

/-- Models `json.Unmarshal(body, &apiErr)` for the `APIError` target:
the document must be an object (or null); a `meta` member must be an object
(or null); `code` must be a number and `error` a string when present;
missing members keep the zero values; other members are ignored. -/
def decodeAPIError : Json → Option APIError
  | .null => some ⟨0, ""⟩
  | .obj fields =>
    match lookupField fields "meta" with
    | none => some ⟨0, ""⟩
    | some .null => some ⟨0, ""⟩
    | some (.obj mfields) =>
      let code : Option Int :=
        match lookupField mfields "code" with
        | none => some 0
        | some (.num n) => some n
        | some _ => none
      let err : Option String :=
        match lookupField mfields "error" with
        | none => some ""
        | some (.str s) => some s
        | some _ => none
      match code, err with
      | some c, some e => some ⟨c, e⟩
      | _, _ => none
    | some _ => none
  | _ => none

/-- Unmarshal a response body into `APIError`. -/
def unmarshalAPIError (body : String) : Option APIError :=
  (parseJson body).bind decodeAPIError

/-- Embeds the error construction of the non-2xx branch of `request`
(`client.go`, lines 72-78): if the body unmarshals and carries a non-empty
`meta.error`, the error is `API error: <message>`; otherwise it is
`API error (status <code>): <body>`. -/
def non2xxError (status : Nat) (body : String) : String :=
  match unmarshalAPIError body with
  | some apiErr =>
    if apiErr.metaError != "" then "API error: " ++ apiErr.metaError
    else "API error (status " ++ toString status ++ "): " ++ body
  | none => "API error (status " ++ toString status ++ "): " ++ body

/-- Embeds the status dispatch of `request`: any 2xx status returns the body;
every other status fails with `non2xxError`. The function is total: a
non-2xx response always produces an error value, never a crash. -/
def requestResult (status : Nat) (body : String) : Except String String :=
  if status < 200 || status ≥ 300 then .error (non2xxError status body)
  else .ok body

/-! ## Concrete fixtures used by the concrete theorems below -/

/-- A device whose display name (nickname) equals another device's ID. -/
def devNameTrap : Device :=
  { url := "/2.2/devices/aaa", mac := "11:22:33:44:55:66", hostname := "h1",
    nickname := "dev2", ip := "10.0.0.1", connected := true, wireless := true,
    paused := false, blocked := false, isGuest := false, isPrivate := false,
    profile := none }

/-- A device whose canonical ID is `dev2`. -/
def devIdTarget : Device :=
  { url := "/2.2/devices/dev2", mac := "22:33:44:55:66:77", hostname := "h2",
    nickname := "", ip := "10.0.0.2", connected := true, wireless := true,
    paused := false, blocked := false, isGuest := false, isPrivate := false,
    profile := none }

/-- A device whose canonical ID starts with `aabbccddeeff`. -/
def devMacTrapId : Device :=
  { url := "/2.2/devices/aabbccddeeff1", mac := "11:22:33:44:55:66",
    hostname := "trap", nickname := "", ip := "10.0.0.3", connected := true,
    wireless := true, paused := false, blocked := false, isGuest := false,
    isPrivate := false, profile := none }

/-- A device whose MAC is `AA:BB:CC:DD:EE:FF`. -/
def devMacTarget : Device :=
  { url := "/2.2/devices/zzz", mac := "AA:BB:CC:DD:EE:FF", hostname := "target",
    nickname := "", ip := "10.0.0.4", connected := true, wireless := true,
    paused := false, blocked := false, isGuest := false, isPrivate := false,
    profile := none }

/-- A reservation with canonical ID `res1234`. -/
def resFixture : Reservation :=
  { url := "/2.2/networks/12345/reservations/res1234", ip := "192.168.1.10",
    mac := "11:22:33:44:55:66", description := "NAS" }

/-- Monitor fixture: device A, online. -/
def devA : Device :=
  { url := "/2.2/devices/devA", mac := "AA:AA:AA:AA:AA:01", hostname := "hostA",
    nickname := "", ip := "10.0.0.11", connected := true, wireless := true,
    paused := false, blocked := false, isGuest := false, isPrivate := false,
    profile := none }

/-- Monitor fixture: device B, online, wired. -/
def devB : Device :=
  { url := "/2.2/devices/devB", mac := "AA:AA:AA:AA:AA:02", hostname := "hostB",
    nickname := "", ip := "10.0.0.12", connected := true, wireless := false,
    paused := false, blocked := false, isGuest := false, isPrivate := false,
    profile := none }

/-- Monitor fixture: device A after its `connected` flag flipped. -/
def devAFlipped : Device := { devA with connected := false }

/-- Filter fixture: an online, wireless, profiled device. -/
def devOnlineWireless : Device :=
  { url := "/2.2/devices/on1", mac := "AA:AA:AA:AA:AA:03", hostname := "on",
    nickname := "", ip := "10.0.0.13", connected := true, wireless := true,
    paused := false, blocked := false, isGuest := false, isPrivate := false,
    profile := some ⟨"/2.2/networks/12345/profiles/prof1", "Adults"⟩ }

/-- Filter fixture: an offline, wired, unprofiled device. -/
def devOfflineWired : Device :=
  { url := "/2.2/devices/off1", mac := "AA:AA:AA:AA:AA:04", hostname := "off",
    nickname := "", ip := "10.0.0.14", connected := false, wireless := false,
    paused := false, blocked := false, isGuest := false, isPrivate := false,
    profile := none }

/-! ## Helper lemmas -/

/-- A character list is a left part of itself. -/
theorem listIsPrefixOf_self (l : List Char) : l.isPrefixOf l = true := by
  induction l with
  | nil => rfl
  | cons c cs ih => simp [List.isPrefixOf, ih]

/-- Scanning a listing whose front devices all fail every rule skips them. -/
theorem findDeviceIDScan_append_skip (pre rest : List Device) (q : String)
    (h : ∀ e ∈ pre, deviceMatchesQuery e q = false) :
    findDeviceIDScan (pre ++ rest) q = findDeviceIDScan rest q := by
  induction pre with
  | nil => rfl
  | cons e es ih =>
    have he : deviceMatchesQuery e q = false := h e (by simp)
    simp only [List.cons_append, findDeviceIDScan, he]
    simp only [Bool.false_eq_true, if_false]
    exact ih (fun x hx => h x (by simp [hx]))

/-- Two queries on which every candidate's rules agree scan identically. -/
theorem findDeviceIDScan_congr (ds : List Device) (q1 q2 : String)
    (h : ∀ d ∈ ds, deviceMatchesQuery d q1 = deviceMatchesQuery d q2) :
    findDeviceIDScan ds q1 = findDeviceIDScan ds q2 := by
  induction ds with
  | nil => rfl
  | cons d rest ih =>
    have hd := h d (by simp)
    simp only [findDeviceIDScan, hd]
    rw [ih (fun x hx => h x (by simp [hx]))]

/-- A reservation scan over candidates that all fail every rule finds none. -/
theorem findReservationIDScan_eq_none (rs : List Reservation) (q : String)
    (h : ∀ r ∈ rs, reservationMatchesQuery r q = false) :
    findReservationIDScan rs q = none := by
  induction rs with
  | nil => rfl
  | cons r rest ih =>
    have hr : reservationMatchesQuery r q = false := h r (by simp)
    simp only [findReservationIDScan, hr]
    simp only [Bool.false_eq_true, if_false]
    exact ih (fun x hx => h x (by simp [hx]))

/-- Two queries on which every reservation's rules agree scan identically. -/
theorem findReservationIDScan_congr (rs : List Reservation) (q1 q2 : String)
    (h : ∀ r ∈ rs, reservationMatchesQuery r q1 = reservationMatchesQuery r q2) :
    findReservationIDScan rs q1 = findReservationIDScan rs q2 := by
  induction rs with
  | nil => rfl
  | cons r rest ih =>
    have hr := h r (by simp)
    simp only [findReservationIDScan, hr]
    rw [ih (fun x hx => h x (by simp [hx]))]

/-- The MAC rule collapses to colon-stripped equality: matching the raw
lower-cased MAC implies matching it with the colons removed. -/
theorem macRule_eq_strip (m q : String) :
    (goToLower m == q || stripColons (goToLower m) == stripColons q)
      = (stripColons (goToLower m) == stripColons q) := by
  by_cases h : goToLower m = q
  · simp [h]
  · have hb : (goToLower m == q) = false := beq_false_of_ne h
    simp [hb]

/-- The found flag of `removeScan` is membership of the URL. -/
theorem removeScan_fst (l : List String) (u : String) :
    (removeScan l u).1 = l.contains u := by
  induction l with
  | nil => rfl
  | cons x rest ih =>
    simp only [removeScan, List.contains_cons]
    by_cases h : x = u
    · simp [h]
    · have hb : (x == u) = false := beq_false_of_ne h
      have hb' : (u == x) = false := beq_false_of_ne (Ne.symm h)
      simp [hb, hb', ih]

/-- The list `removeScan` builds is the member list with every occurrence of
the URL dropped, order preserved. -/
theorem removeScan_snd (l : List String) (u : String) :
    (removeScan l u).2 = l.filter (fun x => x != u) := by
  induction l with
  | nil => rfl
  | cons x rest ih =>
    simp only [removeScan, List.filter_cons]
    by_cases h : x = u
    · simp [h, ih]
    · have hb : (x == u) = false := beq_false_of_ne h
      simp [hb, ih, bne]

end EeroCli

namespace EeroCli

/-! ## Claim C4: ID extraction vs the trailing path segment. -/

/-- Claim C4: the spec says `ExtractDeviceID` / `ExtractProfileID` return the
trailing path segment (the substring after the last `/`) of the resource URL,
so that `/2.2/networks/{nid}/devices/{id}` yields `{id}`. The code instead
slices at a fixed byte offset (13 resp. 14), which is wrong for every URL of
that shape, and contradicts the repository's own tests
(`TestExtractDeviceID` expects `"/1664356/devices/f6af4e4424f1" ↦
"f6af4e4424f1"`, `TestFindProfileByID` feeds
`"/2.2/networks/12345/profiles/prof1"` and expects `"prof1"`).
This theorem evaluates the embedded code at those failing inputs. -/
theorem extract_id_fixed_offset_bug :
    ExtractDeviceID "/2.2/networks/12345/devices/aabbccdd1122" = "/12345/devices/aabbccdd1122"
    ∧ trailingPathSegment "/2.2/networks/12345/devices/aabbccdd1122" = "aabbccdd1122"
    ∧ ExtractDeviceID "/1664356/devices/f6af4e4424f1" ≠ "f6af4e4424f1"
    ∧ ExtractProfileID "/2.2/networks/12345/profiles/prof1" = "12345/profiles/prof1"
    ∧ trailingPathSegment "/2.2/networks/12345/profiles/prof1" = "prof1" := by
  refine ⟨by decide, by decide, by decide, by decide, by decide⟩

end EeroCli

namespace EeroCli

/-! ## Claims C7 and C10: profile membership. -/

/-- Claim C7: adding a device that is not in a profile's member list appends
its URL to the full list (preserving the order of the pre-existing members),
and removing it again (the removal reading the list the addition wrote)
restores exactly the original ordered member list. -/
theorem profile_membership_add_remove_roundtrip
    (networkID deviceID profileName : String) (members : List String)
    (h : deviceURLFor networkID deviceID ∉ members) :
    AddDeviceToProfile networkID deviceID profileName members
        = .ok (members ++ [deviceURLFor networkID deviceID])
      ∧ (AddDeviceToProfile networkID deviceID profileName members).bind
          (RemoveDeviceFromProfile networkID deviceID profileName)
        = .ok members := by
  have hc : members.contains (deviceURLFor networkID deviceID) = false := by
    simpa using h
  have hadd : AddDeviceToProfile networkID deviceID profileName members
      = .ok (members ++ [deviceURLFor networkID deviceID]) := by
    simp [AddDeviceToProfile, hc, h]
  refine ⟨hadd, ?_⟩
  rw [hadd]
  have hfound : (removeScan (members ++ [deviceURLFor networkID deviceID])
      (deviceURLFor networkID deviceID)).1 = true := by
    rw [removeScan_fst]
    simp
  have hkeep : (removeScan (members ++ [deviceURLFor networkID deviceID])
      (deviceURLFor networkID deviceID)).2 = members := by
    rw [removeScan_snd, List.filter_append]
    have h1 : members.filter (fun x => x != deviceURLFor networkID deviceID) = members := by
      apply List.filter_eq_self.mpr
      intro x hx
      have : x ≠ deviceURLFor networkID deviceID := fun hxe => h (hxe ▸ hx)
      simpa [bne] using this
    simp [h1]
  simp only [Except.bind, RemoveDeviceFromProfile]
  rw [hfound, hkeep]
  simp

/-- Witness for C7 at a concrete member list and device. -/
theorem profile_membership_add_remove_roundtrip_witness :
    "/2.2/networks/12345/devices/eeff00112233"
        ∉ ["/2.2/networks/12345/devices/aabbccdd1122"]
      ∧ (AddDeviceToProfile "12345" "eeff00112233" "Adults"
            ["/2.2/networks/12345/devices/aabbccdd1122"]).bind
          (RemoveDeviceFromProfile "12345" "eeff00112233" "Adults")
        = .ok ["/2.2/networks/12345/devices/aabbccdd1122"] :=
  ⟨by decide,
    (profile_membership_add_remove_roundtrip "12345" "eeff00112233" "Adults"
      ["/2.2/networks/12345/devices/aabbccdd1122"] (by decide)).2⟩

/-- Claim C10: both membership commands check their precondition against the
freshly-read member list and return an error before any `SetProfileDevices`
write when it fails (an `error` result of the embedded operation is produced
prior to the write call, so the membership list is left unchanged): adding a
device already in the profile fails with `already in profile`, removing a
device not in the profile fails with `not in profile`. -/
theorem profile_membership_guard_no_write
    (networkID deviceID profileName : String) (members : List String) :
    (deviceURLFor networkID deviceID ∈ members →
      AddDeviceToProfile networkID deviceID profileName members
        = .error ("device " ++ deviceID ++ " is already in profile " ++ profileName))
    ∧ (deviceURLFor networkID deviceID ∉ members →
      RemoveDeviceFromProfile networkID deviceID profileName members
        = .error ("device " ++ deviceID ++ " is not in profile " ++ profileName)) := by
  constructor
  · intro h
    have hc : members.contains (deviceURLFor networkID deviceID) = true := by
      simpa using h
    simp [AddDeviceToProfile, hc, h]
  · intro h
    have hc : members.contains (deviceURLFor networkID deviceID) = false := by
      simpa using h
    have hfound : (removeScan members (deviceURLFor networkID deviceID)).1 = false := by
      rw [removeScan_fst]; exact hc
    simp [RemoveDeviceFromProfile, hfound]

/-- Witness for C10 at concrete member lists. -/
theorem profile_membership_guard_no_write_witness :
    AddDeviceToProfile "12345" "aabbccdd1122" "Adults"
        ["/2.2/networks/12345/devices/aabbccdd1122"]
      = .error "device aabbccdd1122 is already in profile Adults"
    ∧ RemoveDeviceFromProfile "12345" "eeff00112233" "Adults" []
      = .error "device eeff00112233 is not in profile Adults" :=
  ⟨by
    have h := (profile_membership_guard_no_write "12345" "aabbccdd1122" "Adults"
      ["/2.2/networks/12345/devices/aabbccdd1122"]).1 (by decide)
    simpa using h,
   by
    have h := (profile_membership_guard_no_write "12345" "eeff00112233" "Adults" []).2
      (by decide)
    simpa using h⟩

end EeroCli

namespace EeroCli

/-! ## Claim C1: listing-order priority of the device resolver. -/

/-- Counterexample to claim C1: the resolver scans candidates in listing
order and, per candidate, tries all four rules before moving on. A device
whose display name equals the query and which appears earlier in the listing
therefore wins over a later device whose canonical ID equals the query:
here the query `dev2` equals `devIdTarget`'s canonical ID, yet the resolver
returns the earlier name-matching device's ID `aaa`. -/
theorem findDeviceID_name_match_shadows_id :
    devNameTrap.DisplayName = "dev2"
      ∧ ExtractDeviceID devIdTarget.url = "dev2"
      ∧ findDeviceID [devNameTrap, devIdTarget] "dev2" = .ok "aaa"
      ∧ ("aaa" : String) ≠ "dev2" := by
  refine ⟨by decide, by decide, by rfl, by decide⟩

/-- Claim C1 as amended: the resolver scans candidates in listing order,
trying exact-ID, ID-prefix, MAC and display-name per candidate; a query
equal (case-insensitively) to a device's canonical ID resolves to that
device's ID provided no earlier device in the listing matches the query by
any rule. -/
theorem findDeviceID_id_match_first_unmatched
    (pre post : List Device) (d : Device) (q : String)
    (hpre : ∀ e ∈ pre, deviceMatchesQuery e (goToLower q) = false)
    (hid : goToLower q = goToLower (ExtractDeviceID d.url)) :
    findDeviceID (pre ++ d :: post) q = .ok (ExtractDeviceID d.url) := by
  have hd : deviceMatchesQuery d (goToLower q) = true := by
    simp only [deviceMatchesQuery]
    have hb : goStartsWith (goToLower (ExtractDeviceID d.url)) (goToLower q) = true := by
      simp only [goStartsWith]
      rw [hid]
      exact listIsPrefixOf_self _
    simp [hb]
  have hscan : findDeviceIDScan (pre ++ d :: post) (goToLower q)
      = some (ExtractDeviceID d.url) := by
    rw [findDeviceIDScan_append_skip pre (d :: post) (goToLower q) hpre]
    simp [findDeviceIDScan, hd]
  simp [findDeviceID, hscan]

/-- Witness for the amended C1: with one non-matching device ahead of it,
the device with canonical ID `dev2` is resolved by ID. -/
theorem findDeviceID_id_match_first_unmatched_witness :
    (∀ e ∈ [devMacTarget], deviceMatchesQuery e (goToLower "dev2") = false)
      ∧ goToLower "dev2" = goToLower (ExtractDeviceID devIdTarget.url)
      ∧ findDeviceID ([devMacTarget] ++ devIdTarget :: []) "dev2"
        = .ok (ExtractDeviceID devIdTarget.url) :=
  ⟨by decide, by decide,
    findDeviceID_id_match_first_unmatched [devMacTarget] [] devIdTarget "dev2"
      (by decide) (by decide)⟩

/-! ## Claim C6: separator- and case-insensitive MAC resolution. -/

/-- Counterexample to claim C6 as universally stated: the colon form and the
colon-free form of the same MAC can resolve to different devices, because
the colon-free form can fire the ID-prefix rule of an earlier candidate.
Here `aabbccddeeff` is a left part of the earlier device's ID
`aabbccddeeff1`, so the two forms of `devMacTarget`'s MAC resolve to two
different IDs. -/
theorem mac_queries_resolve_differently :
    devMacTarget.mac = "AA:BB:CC:DD:EE:FF"
      ∧ stripColons (goToLower "AA:BB:CC:DD:EE:FF") = "aabbccddeeff"
      ∧ findDeviceID [devMacTrapId, devMacTarget] "AA:BB:CC:DD:EE:FF" = .ok "zzz"
      ∧ findDeviceID [devMacTrapId, devMacTarget] "aabbccddeeff" = .ok "aabbccddeeff1"
      ∧ ("zzz" : String) ≠ "aabbccddeeff1" := by
  refine ⟨by decide, by decide, by rfl, by rfl, by decide⟩

/-- Claim C6 as amended: the MAC rule itself is separator- and
case-insensitive, so two queries with the same colon-stripped lower-case
form resolve to the same device (and the same reservation) whenever neither
query matches any candidate through a non-MAC rule (exact ID, ID prefix or
display name for devices; exact ID or IP for reservations). -/
theorem mac_resolution_separator_insensitive
    (devices : List Device) (reservations : List Reservation) (q1 q2 : String)
    (hstrip : stripColons (goToLower q1) = stripColons (goToLower q2))
    (hdev : ∀ d ∈ devices,
      (ExtractDeviceID d.url == goToLower q1) = false
        ∧ (ExtractDeviceID d.url == goToLower q2) = false
        ∧ goStartsWith (goToLower (ExtractDeviceID d.url)) (goToLower q1) = false
        ∧ goStartsWith (goToLower (ExtractDeviceID d.url)) (goToLower q2) = false
        ∧ eqFold d.DisplayName (goToLower q1) = false
        ∧ eqFold d.DisplayName (goToLower q2) = false)
    (hres : ∀ r ∈ reservations,
      (ExtractReservationID r.url == goToLower q1) = false
        ∧ (ExtractReservationID r.url == goToLower q2) = false
        ∧ (r.ip == goToLower q1) = false
        ∧ (r.ip == goToLower q2) = false) :
    (∀ id, findDeviceID devices q1 = .ok id ↔ findDeviceID devices q2 = .ok id)
      ∧ (∀ id, findReservationID reservations q1 = .ok id
          ↔ findReservationID reservations q2 = .ok id) := by
  constructor
  · have hs : findDeviceIDScan devices (goToLower q1)
        = findDeviceIDScan devices (goToLower q2) := by
      apply findDeviceIDScan_congr
      intro d hd
      obtain ⟨h1, h2, h3, h4, h5, h6⟩ := hdev d hd
      simp only [deviceMatchesQuery, h1, h2, h3, h4, h5, h6]
      rw [macRule_eq_strip, macRule_eq_strip, hstrip]
    intro id
    simp only [findDeviceID, hs]
    cases findDeviceIDScan devices (goToLower q2) <;> simp
  · have hs : findReservationIDScan reservations (goToLower q1)
        = findReservationIDScan reservations (goToLower q2) := by
      apply findReservationIDScan_congr
      intro r hr
      obtain ⟨h1, h2, h3, h4⟩ := hres r hr
      simp only [reservationMatchesQuery, h1, h2, h3, h4]
      rw [macRule_eq_strip, macRule_eq_strip, hstrip]
    intro id
    simp only [findReservationID, hs]
    cases findReservationIDScan reservations (goToLower q2) <;> simp

/-- Witness for the amended C6 at a single-device, single-reservation
listing and the two forms of `AA:BB:CC:DD:EE:FF`. -/
theorem mac_resolution_separator_insensitive_witness :
    stripColons (goToLower "AA:BB:CC:DD:EE:FF") = stripColons (goToLower "aabbccddeeff")
      ∧ (findDeviceID [devMacTarget] "AA:BB:CC:DD:EE:FF" = .ok "zzz"
          ↔ findDeviceID [devMacTarget] "aabbccddeeff" = .ok "zzz") :=
  ⟨by decide,
    (mac_resolution_separator_insensitive [devMacTarget] [resFixture]
      "AA:BB:CC:DD:EE:FF" "aabbccddeeff" (by decide)
      (by decide) (by decide)).1 "zzz"⟩

/-! ## Claim C9: abbreviated reservation IDs. -/

/-- Counterexample to claim C9: the reservation resolver has no ID-prefix
rule. The query `res12` is a case-insensitive proper prefix of exactly one
reservation's canonical ID `res1234` and matches nothing by exact ID, MAC or
IP, yet `findReservationID` fails with not-found instead of returning the
reservation's ID. -/
theorem findReservationID_prefix_query_fails :
    goStartsWith (goToLower (ExtractReservationID resFixture.url)) (goToLower "res12") = true
      ∧ goToLower "res12" ≠ goToLower (ExtractReservationID resFixture.url)
      ∧ findReservationID [resFixture] "res12" = .error "reservation not found: res12" := by
  refine ⟨by decide, by decide, by rfl⟩

/-- Claim C9 as amended: the reservation resolver supports only exact
canonical-ID, MAC, and IP matching; any query matching no reservation by
those rules — including one that is merely a case-insensitive proper prefix
of a reservation ID — fails with `reservation not found`. -/
theorem findReservationID_unmatched_not_found
    (rs : List Reservation) (q : String)
    (h : ∀ r ∈ rs, reservationMatchesQuery r (goToLower q) = false) :
    findReservationID rs q = .error ("reservation not found: " ++ goToLower q) := by
  have hscan := findReservationIDScan_eq_none rs (goToLower q) h
  simp [findReservationID, hscan]

/-- Witness for the amended C9 at the prefix query `res12`. -/
theorem findReservationID_unmatched_not_found_witness :
    (∀ r ∈ [resFixture], reservationMatchesQuery r (goToLower "res12") = false)
      ∧ findReservationID [resFixture] "res12"
        = .error ("reservation not found: " ++ goToLower "res12") :=
  ⟨by decide, findReservationID_unmatched_not_found [resFixture] "res12" (by decide)⟩

end EeroCli

namespace EeroCli

/-! ## Claim C8: fetch failures never kill the monitor loop. -/

/-- Claim C8: a device-list fetch failure on any monitor tick is reported
and changes nothing: the snapshot map is untouched, the first-tick flag is
untouched (the `continue` skips the `first = false` assignment), the loop
sleeps the full interval, and — `monitorTick` being a total function to the
next loop state — the loop is not terminated but retries on the next tick.
The wall-clock timestamp attached to the report is presentational and is not
modelled. -/
theorem monitor_fetch_failure_keeps_state
    (f : DeviceFilters) (rn : String) (m : List (String × DeviceState))
    (first : Bool) (e : String) :
    (monitorTick f rn m first (.error e)).fetchErrorReported = some e
      ∧ (monitorTick f rn m first (.error e)).events = []
      ∧ (monitorTick f rn m first (.error e)).state = m
      ∧ (monitorTick f rn m first (.error e)).first = first
      ∧ (monitorTick f rn m first (.error e)).sleptSeconds = monitorInterval f :=
  ⟨rfl, rfl, rfl, rfl, rfl⟩

/-! ## Claim C3: transport error mapping. -/

/-- Counterexample to claim C3 as stated: for status 401 with body
`{"meta":{"code":401,"error":"unauthorized"}}` the error message is
`API error: unauthorized`, not exactly `unauthorized` — the code prefixes
the vendor string with `API error: ` (and the repository's own test
`TestAPIError401` expects exactly that prefixed form). -/
theorem request_error_message_not_verbatim :
    requestResult 401 "\x7b\"meta\":\x7b\"code\":401,\"error\":\"unauthorized\"\x7d\x7d"
        = .error "API error: unauthorized"
      ∧ ("API error: unauthorized" : String) ≠ "unauthorized" := by
  refine ⟨by rfl, by decide⟩

/-- Claim C3 as amended: for every non-2xx status, a body carrying a
non-empty `meta.error` yields the error `API error: <vendor message>` (the
vendor string verbatim behind a fixed prefix), and a body that is not valid
JSON yields the error `API error (status <code>): <body>` — in both cases a
definite error value produced by a total function, never a crash. -/
theorem request_non2xx_error_mapping
    (status : Nat) (body : String) (apiErr : APIError)
    (hs : status < 200 ∨ 300 ≤ status) :
    (unmarshalAPIError body = some apiErr → apiErr.metaError ≠ "" →
      requestResult status body = .error ("API error: " ++ apiErr.metaError))
    ∧ (unmarshalAPIError body = none →
      requestResult status body
        = .error ("API error (status " ++ toString status ++ "): " ++ body)) := by
  have hb : (decide (status < 200) || decide (status ≥ 300)) = true := by
    rcases hs with h | h <;> simp [h]
  constructor
  · intro h1 h2
    have h2' : (apiErr.metaError != "") = true := by simpa using h2
    simp [requestResult, hb, non2xxError, h1, h2']
  · intro h1
    simp [requestResult, hb, non2xxError, h1]

/-- Witness for the amended C3 at the two concrete responses of the claim. -/
theorem request_non2xx_error_mapping_witness :
    (401 < 200 ∨ 300 ≤ 401)
      ∧ requestResult 401 "\x7b\"meta\":\x7b\"code\":401,\"error\":\"unauthorized\"\x7d\x7d"
        = .error ("API error: " ++ "unauthorized")
      ∧ requestResult 502 "not json"
        = .error ("API error (status " ++ toString 502 ++ "): " ++ "not json") :=
  ⟨by decide,
    (request_non2xx_error_mapping 401
      "\x7b\"meta\":\x7b\"code\":401,\"error\":\"unauthorized\"\x7d\x7d"
      ⟨401, "unauthorized"⟩ (by decide)).1 (by rfl) (by decide),
    (request_non2xx_error_mapping 502 "not json" ⟨0, ""⟩ (by decide)).2 (by rfl)⟩

end EeroCli

namespace EeroCli

/-! ## Claim C5: conjunctive device filtering. -/

/-- The `continue` cascade of the listing loop keeps a device exactly when
the conjunction of the eight predicates holds. -/
theorem survivors_cons (f : DeviceFilters) (rn : String) (d : Device) (ds : List Device) :
    survivors f rn (d :: ds)
      = if devicePasses f rn d then d :: survivors f rn ds else survivors f rn ds := by
  cases h1 : (f.profile != ""
      && !(eqFold (listProfileName d) rn || eqFold (listProfileID d) f.profile)) with
  | true =>
    have hp : devicePasses f rn d = false := by
      simp only [devicePasses, profileFilterOk]
      rw [h1]; simp
    simp only [survivors]
    rw [h1, hp]; simp
  | false =>
  cases h2 : (f.wired && d.wireless) with
  | true =>
    have hp : devicePasses f rn d = false := by
      simp only [devicePasses, wiredOk]
      rw [h2]; simp
    simp only [survivors]
    rw [h1, h2, hp]; simp
  | false =>
  cases h3 : (f.wireless && !d.wireless) with
  | true =>
    have hp : devicePasses f rn d = false := by
      simp only [devicePasses, wirelessOk]
      rw [h3]; simp
    simp only [survivors]
    rw [h1, h2, h3, hp]; simp
  | false =>
  cases h4 : (f.online && !d.connected) with
  | true =>
    have hp : devicePasses f rn d = false := by
      simp only [devicePasses, onlineOk]
      rw [h4]; simp
    simp only [survivors]
    rw [h1, h2, h3, h4, hp]; simp
  | false =>
  cases h5 : (f.offline && d.connected) with
  | true =>
    have hp : devicePasses f rn d = false := by
      simp only [devicePasses, offlineOk]
      rw [h5]; simp
    simp only [survivors]
    rw [h1, h2, h3, h4, h5, hp]; simp
  | false =>
  cases h6 : (f.guest && !d.isGuest) with
  | true =>
    have hp : devicePasses f rn d = false := by
      simp only [devicePasses, guestOk]
      rw [h6]; simp
    simp only [survivors]
    rw [h1, h2, h3, h4, h5, h6, hp]; simp
  | false =>
  cases h7 : (f.noGuest && d.isGuest) with
  | true =>
    have hp : devicePasses f rn d = false := by
      simp only [devicePasses, noGuestOk]
      rw [h7]; simp
    simp only [survivors]
    rw [h1, h2, h3, h4, h5, h6, h7, hp]; simp
  | false =>
  cases h8 : (f.noProfile && d.profile.isSome) with
  | true =>
    have hp : devicePasses f rn d = false := by
      simp only [devicePasses, noProfileOk]
      rw [h8]; simp
    simp only [survivors]
    rw [h1, h2, h3, h4, h5, h6, h7, h8, hp]; simp
  | false =>
    have hp : devicePasses f rn d = true := by
      simp only [devicePasses, profileFilterOk, wiredOk, wirelessOk, onlineOk, offlineOk,
        guestOk, noGuestOk, noProfileOk]
      rw [h1, h2, h3, h4, h5, h6, h7, h8]; simp
    simp only [survivors]
    rw [h1, h2, h3, h4, h5, h6, h7, h8, hp]; simp

/-- The cascade equals a `filter` by the conjunction. -/
theorem survivors_eq_filter (f : DeviceFilters) (rn : String) (ds : List Device) :
    survivors f rn ds = ds.filter (devicePasses f rn) := by
  induction ds with
  | nil => rfl
  | cons d rest ih => rw [survivors_cons, List.filter_cons, ih]

/-- Claim C5: device filtering is conjunctive — a device appears in the
filtered listing iff it is in the input and satisfies every one of the
predicates (profile, wired, wireless, online, offline, guest, no-guest,
no-profile; a predicate whose flag is off is trivially satisfied). In
particular, over one online/wireless/profiled device and one
offline/wired/unprofiled device, `{online, wireless}` keeps exactly the
first and `{online, wired}` keeps none. -/
theorem device_filtering_conjunctive :
    (∀ (f : DeviceFilters) (rn : String) (ds : List Device) (d : Device),
      d ∈ survivors f rn ds
        ↔ d ∈ ds ∧ profileFilterOk f rn d = true ∧ wiredOk f d = true
            ∧ wirelessOk f d = true ∧ onlineOk f d = true ∧ offlineOk f d = true
            ∧ guestOk f d = true ∧ noGuestOk f d = true ∧ noProfileOk f d = true)
      ∧ survivors { noFilters with online := true, wireless := true } ""
          [devOnlineWireless, devOfflineWired] = [devOnlineWireless]
      ∧ survivors { noFilters with online := true, wired := true } ""
          [devOnlineWireless, devOfflineWired] = [] := by
  refine ⟨?_, by decide, by decide⟩
  intro f rn ds d
  rw [survivors_eq_filter, List.mem_filter]
  simp only [devicePasses, Bool.and_eq_true, and_assoc]

end EeroCli

namespace EeroCli

/-! ## Claim C2: monitor diffing. -/

/-- Lookup after a map update: the updated key reads the new value, any
other key is unaffected. -/
theorem stateLookup_stateInsert (m : List (String × DeviceState)) (k : String)
    (v : DeviceState) (k' : String) :
    stateLookup (stateInsert m k v) k' = if k' = k then some v else stateLookup m k' := by
  induction m with
  | nil =>
    by_cases h : k' = k
    · subst h; simp [stateInsert, stateLookup]
    · have hb : (k == k') = false := beq_false_of_ne (Ne.symm h)
      simp [stateInsert, stateLookup, hb, h]
  | cons p rest ih =>
    obtain ⟨k0, v0⟩ := p
    by_cases h0 : k0 = k
    · subst h0
      by_cases h : k' = k0
      · subst h
        simp [stateInsert, stateLookup]
      · have hb : (k0 == k') = false := beq_false_of_ne (Ne.symm h)
        simp [stateInsert, stateLookup, hb, h]
    · have hb0 : (k0 == k) = false := beq_false_of_ne h0
      by_cases h : k' = k0
      · subst h
        simp [stateInsert, stateLookup, hb0, h0]
      · have hb : (k0 == k') = false := beq_false_of_ne (Ne.symm h)
        simp [stateInsert, stateLookup, hb0, hb, ih]

/-- The events of a successful tick are those of the per-device pass over
the surviving devices. -/
theorem monitorTick_ok_events (f : DeviceFilters) (rn : String)
    (m : List (String × DeviceState)) (first : Bool) (ds : List Device) :
    (monitorTick f rn m first (.ok ds)).events
      = (processDevices first m (monitorSurvivors f rn ds)).1 := rfl

/-- The state of a successful tick is that of the per-device pass. -/
theorem monitorTick_ok_state (f : DeviceFilters) (rn : String)
    (m : List (String × DeviceState)) (first : Bool) (ds : List Device) :
    (monitorTick f rn m first (.ok ds)).state
      = (processDevices first m (monitorSurvivors f rn ds)).2 := rfl

/-- On the first tick no device produces an event. -/
theorem processDevices_first_events (ds : List Device) :
    ∀ m, (processDevices true m ds).1 = [] := by
  induction ds with
  | nil => intro m; rfl
  | cons d rest ih =>
    intro m
    simp only [processDevices]
    rw [ih]
    simp

/-- Keys not named by any processed device are untouched by the pass. -/
theorem processDevices_lookup_untouched (first : Bool) (ds : List Device) :
    ∀ m k, (∀ d ∈ ds, ExtractDeviceID d.url ≠ k) →
      stateLookup (processDevices first m ds).2 k = stateLookup m k := by
  induction ds with
  | nil => intro m k _; rfl
  | cons d rest ih =>
    intro m k hk
    simp only [processDevices]
    rw [ih _ k (fun x hx => hk x (by simp [hx]))]
    rw [stateLookup_stateInsert]
    have : k ≠ ExtractDeviceID d.url := Ne.symm (hk d (by simp))
    simp [this]

/-- After the pass, the stored snapshot of every processed device (device
IDs being pairwise distinct) is its current snapshot. -/
theorem processDevices_lookup_stores (first : Bool) (ds : List Device) :
    ∀ m, (ds.map (fun d => ExtractDeviceID d.url)).Nodup →
      ∀ d ∈ ds, stateLookup (processDevices first m ds).2 (ExtractDeviceID d.url)
        = some (snapshotOf d) := by
  induction ds with
  | nil => intro m _ d hd; cases hd
  | cons d0 rest ih =>
    intro m hnd d hd
    have hnd' := hnd
    rw [List.map_cons, List.nodup_cons] at hnd'
    obtain ⟨hout, htail⟩ := hnd'
    rcases List.mem_cons.mp hd with rfl | hdrest
    · simp only [processDevices]
      rw [processDevices_lookup_untouched]
      · rw [stateLookup_stateInsert]
        simp
      · intro x hx hcontra
        exact hout (hcontra ▸ List.mem_map_of_mem (fun d => ExtractDeviceID d.url) hx)
    · simp only [processDevices]
      exact ih _ htail d hdrest

/-- Two starting maps agreeing on every processed device's key produce the
same events. -/
theorem processDevices_events_congr (first : Bool) (ds : List Device) :
    ∀ m1 m2, (∀ d ∈ ds, stateLookup m1 (ExtractDeviceID d.url)
        = stateLookup m2 (ExtractDeviceID d.url)) →
      (processDevices first m1 ds).1 = (processDevices first m2 ds).1 := by
  induction ds with
  | nil => intro m1 m2 _; rfl
  | cons d0 rest ih =>
    intro m1 m2 h
    have h0 := h d0 (by simp)
    simp only [processDevices]
    rw [h0]
    have hrest : ∀ d ∈ rest,
        stateLookup (stateInsert m1 (ExtractDeviceID d0.url) (snapshotOf d0))
            (ExtractDeviceID d.url)
          = stateLookup (stateInsert m2 (ExtractDeviceID d0.url) (snapshotOf d0))
            (ExtractDeviceID d.url) := by
      intro d hd
      rw [stateLookup_stateInsert, stateLookup_stateInsert]
      by_cases hk : ExtractDeviceID d.url = ExtractDeviceID d0.url
      · simp [hk]
      · simp [hk, h d (by simp [hd])]
    rw [ih _ _ hrest]

/-- On a steady-state tick the emitted events are exactly the pointwise
expected events against the map as it stood at the start of the tick. -/
theorem processDevices_events_expected (ds : List Device) :
    ∀ m, (ds.map (fun d => ExtractDeviceID d.url)).Nodup →
      (processDevices false m ds).1 = ds.filterMap (expectedTickEvent m) := by
  induction ds with
  | nil => intro m _; rfl
  | cons d0 rest ih =>
    intro m hnd
    rw [List.map_cons, List.nodup_cons] at hnd
    obtain ⟨hout, htail⟩ := hnd
    have hcongr : (processDevices false
          (stateInsert m (ExtractDeviceID d0.url) (snapshotOf d0)) rest).1
        = (processDevices false m rest).1 := by
      apply processDevices_events_congr
      intro d hd
      rw [stateLookup_stateInsert]
      have hne : ExtractDeviceID d.url ≠ ExtractDeviceID d0.url := by
        intro hcontra
        exact hout (hcontra ▸ List.mem_map_of_mem (fun d => ExtractDeviceID d.url) hd)
      simp [hne]
    simp only [processDevices, List.filterMap_cons]
    rw [hcongr, ih m htail]
    cases hprev : stateLookup m (ExtractDeviceID d0.url) with
    | none => simp [expectedTickEvent, hprev]
    | some prev =>
      by_cases hch : diffChanged prev (snapshotOf d0) = true
      · simp [expectedTickEvent, hprev, hch]
      · have hch' : diffChanged prev (snapshotOf d0) = false := by
          cases h : diffChanged prev (snapshotOf d0)
          · rfl
          · exact absurd h hch
        simp [expectedTickEvent, hprev, hch']

/-- Claim C2: monitor diffing. On the very first tick no events are emitted
and a snapshot is stored for every surviving device; on a steady-state tick
the emitted events are exactly: one "new" event per surviving device absent
from the previous snapshot map, and one change event per device present in
it whose `connected`, `paused`, `blocked` or `IP` differs from its stored
snapshot — and after any tick the stored snapshot of every surviving device
equals its current snapshot. Concretely, a first tick over a two-device
listing emits no event and stores both snapshots, and a second tick in which
exactly one device's `connected` flag flips emits exactly one change event
naming that device. Device IDs are assumed pairwise distinct within a
listing, as the snapshot map is keyed by device ID. -/
theorem monitorDevices_diffing :
    (∀ (f : DeviceFilters) (rn : String) (m : List (String × DeviceState))
        (ds : List Device),
      (monitorTick f rn m true (.ok ds)).events = [])
    ∧ (∀ (f : DeviceFilters) (rn : String) (m : List (String × DeviceState))
        (first : Bool) (ds : List Device),
      ((monitorSurvivors f rn ds).map (fun d => ExtractDeviceID d.url)).Nodup →
      ∀ d ∈ monitorSurvivors f rn ds,
        stateLookup (monitorTick f rn m first (.ok ds)).state (ExtractDeviceID d.url)
          = some (snapshotOf d))
    ∧ (∀ (f : DeviceFilters) (rn : String) (m : List (String × DeviceState))
        (ds : List Device),
      ((monitorSurvivors f rn ds).map (fun d => ExtractDeviceID d.url)).Nodup →
      (monitorTick f rn m false (.ok ds)).events
        = (monitorSurvivors f rn ds).filterMap (expectedTickEvent m))
    ∧ (monitorTick noFilters "" [] true (.ok [devA, devB])).events = []
    ∧ (monitorTick noFilters "" [] true (.ok [devA, devB])).state
        = [("devA", snapshotOf devA), ("devB", snapshotOf devB)]
    ∧ (monitorTick noFilters ""
          (monitorTick noFilters "" [] true (.ok [devA, devB])).state false
          (.ok [devAFlipped, devB])).events
        = [⟨"devA", false, snapshotOf devAFlipped⟩] := by
  refine ⟨?_, ?_, ?_, by rfl, by rfl, by rfl⟩
  · intro f rn m ds
    rw [monitorTick_ok_events, processDevices_first_events]
  · intro f rn m first ds hnd d hd
    rw [monitorTick_ok_state]
    exact processDevices_lookup_stores first _ m hnd d hd
  · intro f rn m ds hnd
    rw [monitorTick_ok_events]
    exact processDevices_events_expected _ m hnd

/-- Witness for C2's quantified parts at the concrete two-device listing of
the claim: the distinct-ID hypothesis holds and the flipped-connected second
tick emits exactly the expected pointwise events. -/
theorem monitorDevices_diffing_witness :
    ((monitorSurvivors noFilters "" [devAFlipped, devB]).map
        (fun d => ExtractDeviceID d.url)).Nodup
      ∧ (monitorTick noFilters ""
            [("devA", snapshotOf devA), ("devB", snapshotOf devB)] false
            (.ok [devAFlipped, devB])).events
        = (monitorSurvivors noFilters "" [devAFlipped, devB]).filterMap
            (expectedTickEvent [("devA", snapshotOf devA), ("devB", snapshotOf devB)]) :=
  ⟨by decide,
    monitorDevices_diffing.2.2.1 noFilters ""
      [("devA", snapshotOf devA), ("devB", snapshotOf devB)] [devAFlipped, devB]
      (by decide)⟩

end EeroCli
